import Mathlib

/-
Verification of the traffic-junction state-synchronization core:
the `/api/state` route (app/api/state/route.ts), the simplified route
(app/api/state/simplified-route.ts) and the SyncService engine
(lib/sync-service.ts), embedded shallowly.
-/

/-- Json values as produced by `request.json()`.  JS arrays may carry extra
    named properties (set by `newState.lastUpdated = Date.now()` on an array
    body), so `jarr` holds both its elements and a property map.  Numbers are
    modelled as `Int` (the routes only compare and store integral epoch
    milliseconds). -/
inductive Json where
  | jnull : Json
  | jbool : Bool → Json
  | jnum : Int → Json
  | jstr : String → Json
  | jarr : List Json → List (String × Json) → Json
  | jobj : List (String × Json) → Json

namespace Json

/-- JS truthiness of a parsed JSON value (`!newState` check). -/
def truthy : Json → Bool
  | jnull => false
  | jbool b => b
  | jnum n => n != 0
  | jstr s => s != ""
  | jarr _ _ => true
  | jobj _ => true

/-- Whether `typeof v === "object"` holds in JS: objects, arrays and null. -/
def typeofObject : Json → Bool
  | jnull => true
  | jarr _ _ => true
  | jobj _ => true
  | _ => false

/-- The route's validation `!(!newState || typeof newState !== "object")`. -/
def isValidState (v : Json) : Bool := v.truthy && v.typeofObject

/-- Syntactic test: is the value a JSON object (key/value record)? -/
def isJsonObject : Json → Bool
  | jobj _ => true
  | _ => false

/-- Syntactic test: is the value a JSON array? -/
def isJsonArray : Json → Bool
  | jarr _ _ => true
  | _ => false

end Json

/-- Lookup in a JS-style property list (first binding wins; JS objects have
    unique keys, kept unique by `setAssoc`). -/
def lookupAssoc : List (String × Json) → String → Option Json
  | [], _ => none
  | (k2, v) :: rest, k => if k2 = k then some v else lookupAssoc rest k

/-- JS property assignment on a property list: overwrite in place if the key
    exists, otherwise append (JS key-insertion order). -/
def setAssoc : List (String × Json) → String → Json → List (String × Json)
  | [], k, v => [(k, v)]
  | (k2, v2) :: rest, k, v =>
      if k2 = k then (k, v) :: rest else (k2, v2) :: setAssoc rest k v

namespace Json

/-- Property read `j[k]`: objects read their fields, arrays their extra
    properties, primitives yield `undefined` (`none`). -/
def getField : Json → String → Option Json
  | jobj fs, k => lookupAssoc fs k
  | jarr _ props, k => lookupAssoc props k
  | _, _ => none

/-- Property write `j[k] = v`: mutates objects and arrays; a primitive is
    left unchanged (the routes only assign after the `typeof` check). -/
def setField : Json → String → Json → Json
  | jobj fs, k, v => jobj (setAssoc fs k v)
  | jarr es props, k, v => jarr es (setAssoc props k v)
  | j, _, _ => j

/-- Read `j.lastUpdated` as a number; `none` models `undefined` (absent
    field, or a non-numeric value, which the typed source rules out). -/
def getLastUpdated (j : Json) : Option Int :=
  match j.getField "lastUpdated" with
  | some (jnum n) => some n
  | _ => none

end Json

/-- JS `>` on two possibly-undefined numbers: any comparison against
    `undefined` is false. -/
def jsGt : Option Int → Option Int → Bool
  | some x, some y => x > y
  | _, _ => false

/-- Responses a state route can produce: 400 on invalid body, 200 with a
    `state` payload, 500 when `saveState` fails. -/
inductive PostResponse where
  | badRequest : PostResponse
  | ok : Json → PostResponse
  | serverError : PostResponse

/-- The admission guard of both POST handlers:
    `!currentState || newState.lastUpdated > currentState.lastUpdated`,
    comparing the client-submitted stamp against the stored one. -/
def admitWrite (stored : Option Json) (cand : Json) : Bool :=
  match stored with
  | none => true
  | some s => jsGt cand.getLastUpdated s.getLastUpdated

namespace Route

/-- Result of one `POST /api/state` call in app/api/state/route.ts: the
    persisted document afterwards, the HTTP response, and the SSE messages
    sent by `notifyClients` (one `(clientId, document)` pair per write). -/
structure PostResult where
  store : Option Json
  resp : PostResponse
  notified : List (String × Json)

/-- Broadcast `notifyClients(state)`: one message carrying the full
    document to every entry of the `clients` map. -/
def notifyClients (registry : List String) (state : Json) : List (String × Json) :=
  registry.map fun c => (c, state)

/-- The POST handler of app/api/state/route.ts.  `registry` is the module's
    `clients` map, `stored` the adapter's current document, `now` the value
    of `Date.now()`, `saveOk` the result of `dbAdapter.saveState`.  Invalid
    bodies give 400 and change nothing; admitted writes are server-stamped,
    saved and broadcast (a failed save throws to the 500 handler); rejected
    stale writes change nothing but still answer 200 with the candidate
    `newState` as the `state` payload. -/
def POST (registry : List String) (stored : Option Json) (body : Json)
    (now : Int) (saveOk : Bool) : PostResult :=
  if !body.isValidState then
    ⟨stored, .badRequest, []⟩
  else if admitWrite stored body then
    let stamped := body.setField "lastUpdated" (.jnum now)
    if saveOk then
      ⟨some stamped, .ok stamped, notifyClients registry stamped⟩
    else
      ⟨stored, .serverError, []⟩
  else
    ⟨stored, .ok body, []⟩

/-- The GET handler: `NextResponse.json(state || {})`. -/
def GET (stored : Option Json) : Json := stored.getD (.jobj [])

end Route

namespace SimpleRoute

/-- The POST handler of app/api/state/simplified-route.ts: same admission
    and stamping as the main route, but writes to the in-memory
    `currentState` variable (no adapter, no SSE broadcast) and answers 200
    with `currentState` — the document as stored after the call — rather
    than the submitted candidate. -/
def POST (stored : Option Json) (body : Json) (now : Int) :
    Option Json × PostResponse :=
  if !body.isValidState then
    (stored, .badRequest)
  else
    match stored with
    | none =>
        let stamped := body.setField "lastUpdated" (.jnum now)
        (some stamped, .ok stamped)
    | some s =>
        if jsGt body.getLastUpdated s.getLastUpdated then
          let stamped := body.setField "lastUpdated" (.jnum now)
          (some stamped, .ok stamped)
        else
          (some s, .ok s)

/-- The simplified GET handler: `NextResponse.json(currentState || {})`. -/
def GET (stored : Option Json) : Json := stored.getD (.jobj [])

end SimpleRoute

/-- Requests the state module serves; a POST carries its parsed body, the
    server clock at the call, and whether the adapter save succeeds. -/
inductive ApiOp where
  | get : ApiOp
  | post : Json → Int → Bool → ApiOp

/-- Module-level state of app/api/state/route.ts: the `clients` map for SSE
    and the adapter's stored document.  No handler in the file ever inserts
    into `clients`; it is only read by `notifyClients`. -/
structure ApiModule where
  clients : List String
  store : Option Json

/-- Effect of serving one request on the module state (GET reads only). -/
def apiStep (m : ApiModule) : ApiOp → ApiModule
  | .get => m
  | .post body now saveOk =>
      { m with store := (Route.POST m.clients m.store body now saveOk).store }

/-- Serve a sequence of requests. -/
def apiRun (m : ApiModule) : List ApiOp → ApiModule
  | [] => m
  | op :: ops => apiRun (apiStep m op) ops

/-- Fold a sequence of POSTs (body, clock, save result) over the stored
    document, as the admission path of the route persists them. -/
def applyPosts (stored : Option Json) : List (Json × Int × Bool) → Option Json
  | [] => stored
  | (b, now, saveOk) :: rest =>
      applyPosts (Route.POST [] stored b now saveOk).store rest

/-- The stored document's `lastUpdated`, when a document is stored and
    carries one. -/
def storeStamp (stored : Option Json) : Option Int :=
  stored.bind Json.getLastUpdated

/-- A server-clock reading is at or after the stamp currently stored. -/
def stampLe : Option Int → Int → Bool
  | none, _ => true
  | some t, n => t ≤ n

/-- Server clock sanity along a POST trace: each `Date.now()` reading is at
    or after the stamp of the document stored when the request arrives
    (true of a monotone wall clock, since stored stamps are earlier
    readings of the same clock). -/
def clockOk (stored : Option Json) : List (Json × Int × Bool) → Bool
  | [] => true
  | (b, now, saveOk) :: rest =>
      stampLe (storeStamp stored) now &&
        clockOk (Route.POST [] stored b now saveOk).store rest

/-- Stamp monotonicity between two store snapshots: if the first carries a
    stamp, so does the second, and it is no smaller. -/
def stampMono (a b : Option Int) : Prop :=
  ∀ t, a = some t → ∃ u, b = some u ∧ t ≤ u

/-- The `SyncedState` interface of lib/sync-service.ts. -/
structure SyncedState where
  signalStatus : List (String × String)
  timeZones : List Json
  priorities : Json
  controlMode : String
  ipAddresses : List (String × String)
  lastUpdated : Int
  lastUpdatedBy : String

/-- Corresponds to `Partial<SyncedState>`: every field optional, as passed
    to `updateStateAndPublish`. -/
structure PartialSyncedState where
  signalStatus : Option (List (String × String)) := none
  timeZones : Option (List Json) := none
  priorities : Option Json := none
  controlMode : Option String := none
  ipAddresses : Option (List (String × String)) := none
  lastUpdated : Option Int := none
  lastUpdatedBy : Option String := none

/-- The spread `{ ...this.state, ...partialState, lastUpdated: Date.now(),
    lastUpdatedBy: this.config.clientId }`: field-wise shallow merge, with
    the two stamps written last so they always take the literal values. -/
def mergeState (s : SyncedState) (p : PartialSyncedState) (now : Int)
    (clientId : String) : SyncedState where
  signalStatus := p.signalStatus.getD s.signalStatus
  timeZones := p.timeZones.getD s.timeZones
  priorities := p.priorities.getD s.priorities
  controlMode := p.controlMode.getD s.controlMode
  ipAddresses := p.ipAddresses.getD s.ipAddresses
  lastUpdated := now
  lastUpdatedBy := clientId

/-- The mutable fields of a `SyncService` instance that the state-sync
    claims concern: the in-memory document and the registered callbacks.
    Callbacks are identified by `Nat` (function identity, as compared by
    `cb !== callback` in the unsubscribe closure); an invocation is
    recorded as the pair `(callback, document passed)`. -/
structure SyncService where
  state : SyncedState
  callbacks : List Nat
  clientId : String

namespace SyncService

/-- Method `notifyStateChange()`: invoke every registered callback with
    the current document, in registration order. -/
def notifyStateChange (svc : SyncService) : List (Nat × SyncedState) :=
  svc.callbacks.map fun c => (c, svc.state)

/-- Method `onStateChange(callback)`: append the callback, then invoke it once
    with the current document (synchronously, before the unsubscribe
    function is returned).  Yields the new instance state and the
    invocations performed during the call. -/
def onStateChange (svc : SyncService) (cb : Nat) :
    SyncService × List (Nat × SyncedState) :=
  ({ svc with callbacks := svc.callbacks ++ [cb] }, [(cb, svc.state)])

/-- The unsubscribe closure returned by `onStateChange`: drop every
    registration equal to the callback. -/
def unsubscribe (svc : SyncService) (cb : Nat) : SyncService :=
  { svc with callbacks := svc.callbacks.filter fun c => c ≠ cb }

/-- Method `updateState(newState)` (remote adoption path): replace and notify only
    when the incoming stamp is strictly newer, otherwise do nothing. -/
def updateState (svc : SyncService) (ns : SyncedState) :
    SyncService × List (Nat × SyncedState) :=
  if ns.lastUpdated > svc.state.lastUpdated then
    let svc2 := { svc with state := ns }
    (svc2, svc2.notifyStateChange)
  else
    (svc, [])

/-- Method `updateStateAndPublish(partialState)`: build the merged, stamped
    document; a failed `saveState` throws, so the call returns `false`
    with the in-memory document untouched and nobody notified; on success
    the in-memory document is replaced and every callback notified.
    (`now` is `Date.now()`; the WebSocket side-send is transport, not
    state, and is not modelled.) -/
def updateStateAndPublish (svc : SyncService) (p : PartialSyncedState)
    (now : Int) (saveOk : Bool) :
    SyncService × Bool × List (Nat × SyncedState) :=
  let ns := mergeState svc.state p now svc.clientId
  if saveOk then
    let svc2 := { svc with state := ns }
    (svc2, true, svc2.notifyStateChange)
  else
    (svc, false, [])

/-- Fold a sequence of remote documents through `updateState`. -/
def applyRemotes (svc : SyncService) : List SyncedState → SyncService
  | [] => svc
  | ns :: rest => applyRemotes (svc.updateState ns).1 rest

end SyncService

/-- The `state` payload of a 200 response, when there is one. -/
def PostResponse.stateOf : PostResponse → Option Json
  | .ok s => some s
  | _ => none

/-- Whether a response is the 400 invalid-body rejection. -/
def PostResponse.isBadRequest : PostResponse → Bool
  | .badRequest => true
  | _ => false

/-- Read a string-valued field of a document (observable used to compare
    concrete route outputs). -/
def Json.getStringField (j : Json) (k : String) : Option String :=
  match j.getField k with
  | some (.jstr s) => some s
  | _ => none

/-- Read a string-valued field of an optionally stored document. -/
def storeStringField (stored : Option Json) (k : String) : Option String :=
  stored.bind fun j => j.getStringField k

/-- Read a string-valued field of a response's `state` payload. -/
def respStringField (r : PostResponse) (k : String) : Option String :=
  storeStringField r.stateOf k

/-- Scenario document of the spec: the stored authoritative document
    `{controlMode:"manual"}` at `lastUpdated` 2000. -/
def storedManual : Json :=
  .jobj [("controlMode", .jstr "manual"), ("lastUpdated", .jnum 2000)]

/-- Scenario document of the spec: the stale candidate
    `{controlMode:"semi", lastUpdated:1500}`. -/
def candSemi : Json :=
  .jobj [("controlMode", .jstr "semi"), ("lastUpdated", .jnum 1500)]

/-- A candidate strictly newer than `storedManual`, for exercising the
    admitted path. -/
def candSemiNewer : Json :=
  .jobj [("controlMode", .jstr "semi"), ("lastUpdated", .jnum 2500)]

/-- Tagged document A with client stamp 1, for the admission-monotonicity
    scenario. -/
def docA : Json := .jobj [("tag", .jstr "A"), ("lastUpdated", .jnum 1)]

/-- Tagged document B with client stamp 2, for the admission-monotonicity
    scenario. -/
def docB : Json := .jobj [("tag", .jstr "B"), ("lastUpdated", .jnum 2)]

/-- Assigning a key makes it readable back. -/
theorem lookup_setAssoc (l : List (String × Json)) (k : String) (v : Json) :
    lookupAssoc (setAssoc l k v) k = some v := by
  induction l with
  | nil => simp [setAssoc, lookupAssoc]
  | cons p t ih =>
      obtain ⟨k2, v2⟩ := p
      by_cases hk : k2 = k
      · simp [setAssoc, hk, lookupAssoc]
      · simp [setAssoc, hk, lookupAssoc, ih]

/-- Server stamping a valid (object or array) body sets its `lastUpdated`
    to the server clock. -/
theorem getLastUpdated_setStamp (j : Json) (n : Int)
    (hv : j.isValidState = true) :
    (j.setField "lastUpdated" (.jnum n)).getLastUpdated = some n := by
  cases j <;>
    simp_all [Json.isValidState, Json.truthy, Json.typeofObject,
      Json.setField, Json.getLastUpdated, Json.getField, lookup_setAssoc]

/-- JS `>` is irreflexive, also on `undefined`. -/
theorem jsGt_self (a : Option Int) : jsGt a a = false := by
  cases a <;> simp [jsGt]

/-- One POST never moves the stored stamp backwards when the server clock
    is at or after it. -/
theorem postStore_stampMono (stored : Option Json) (b : Json) (now : Int)
    (saveOk : Bool) (h : stampLe (storeStamp stored) now = true) :
    stampMono (storeStamp stored)
      (storeStamp (Route.POST [] stored b now saveOk).store) := by
  intro t ht
  by_cases hv : b.isValidState
  · by_cases hadm : admitWrite stored b
    · cases saveOk with
      | false => exact ⟨t, by simpa [Route.POST, hv, hadm] using ht, le_refl t⟩
      | true =>
          refine ⟨now, ?_, ?_⟩
          · simp [Route.POST, hv, hadm, storeStamp,
              getLastUpdated_setStamp b now hv]
          · rw [ht] at h
            simpa [stampLe] using h
    · exact ⟨t, by simp [Route.POST, hv, hadm]; exact ht, le_refl t⟩
  · exact ⟨t, by simp [Route.POST, hv]; exact ht, le_refl t⟩

/-- Stamp monotonicity composes. -/
theorem stampMono_trans {a b c : Option Int} (hab : stampMono a b)
    (hbc : stampMono b c) : stampMono a c := by
  intro t ht
  obtain ⟨u, hu, htu⟩ := hab t ht
  obtain ⟨w, hw, huw⟩ := hbc u hu
  exact ⟨w, hw, le_trans htu huw⟩

/-- A whole POST trace never moves the stored stamp backwards when the
    server clock never reads below the stored stamp. -/
theorem applyPosts_stampMono (posts : List (Json × Int × Bool))
    (stored : Option Json) (h : clockOk stored posts = true) :
    stampMono (storeStamp stored) (storeStamp (applyPosts stored posts)) := by
  induction posts generalizing stored with
  | nil => exact fun t ht => ⟨t, ht, le_refl t⟩
  | cons p rest ih =>
      obtain ⟨b, now, saveOk⟩ := p
      rw [clockOk, Bool.and_eq_true] at h
      exact stampMono_trans (postStore_stampMono stored b now saveOk h.1)
        (ih _ h.2)

/-- One remote `updateState` never lowers the in-memory stamp. -/
theorem updateState_stamp_mono (svc : SyncService) (ns : SyncedState) :
    svc.state.lastUpdated ≤ ((svc.updateState ns).1).state.lastUpdated := by
  unfold SyncService.updateState
  by_cases h : ns.lastUpdated > svc.state.lastUpdated
  · simp [h]
    exact le_of_lt h
  · simp [h]

/-- A whole remote trace never lowers the in-memory stamp. -/
theorem applyRemotes_stamp_mono (updates : List SyncedState)
    (svc : SyncService) :
    svc.state.lastUpdated ≤ (svc.applyRemotes updates).state.lastUpdated := by
  induction updates generalizing svc with
  | nil => exact le_refl _
  | cons ns rest ih =>
      exact le_trans (updateState_stamp_mono svc ns)
        (ih (svc.updateState ns).1)

/-- Notifications built over a callback list purged of `cb` never reach
    `cb`. -/
theorem all_ne_of_filtered (l : List Nat) (cb : Nat) (st : SyncedState) :
    ((((l.filter fun c => c ≠ cb).map fun c => (c, st))).all
      fun e => e.1 != cb) = true := by
  induction l with
  | nil => simp
  | cons c t ih =>
      by_cases hc : c = cb
      · simpa [hc] using ih
      · simpa [List.filter, hc] using ih

/-- C3: for every accepted POST /state write, the admission decision
    compares the candidate's client-submitted `lastUpdated` against the
    stored document's, and only an admitted document gets its `lastUpdated`
    overwritten with the server clock, which is the value persisted and
    returned to subsequent GET readers; a rejected candidate leaves the
    store untouched. -/
theorem claim3_admission_two_step (s cand : Json) (now : Int)
    (registry : List String) (hv : cand.isValidState = true) :
    (jsGt cand.getLastUpdated s.getLastUpdated = true →
      (Route.POST registry (some s) cand now true).store
          = some (cand.setField "lastUpdated" (.jnum now)) ∧
      storeStamp (Route.POST registry (some s) cand now true).store
          = some now ∧
      Route.GET (Route.POST registry (some s) cand now true).store
          = cand.setField "lastUpdated" (.jnum now) ∧
      (SimpleRoute.POST (some s) cand now).1
          = some (cand.setField "lastUpdated" (.jnum now))) ∧
    (jsGt cand.getLastUpdated s.getLastUpdated = false →
      (Route.POST registry (some s) cand now true).store = some s ∧
      (SimpleRoute.POST (some s) cand now).1 = some s) := by
  constructor
  · intro hgt
    have hadm : admitWrite (some s) cand = true := hgt
    refine ⟨?_, ?_, ?_, ?_⟩
    · simp [Route.POST, hv, hadm]
    · simp [Route.POST, hv, hadm, storeStamp,
        getLastUpdated_setStamp cand now hv]
    · simp [Route.POST, hv, hadm, Route.GET]
    · simp [SimpleRoute.POST, hv, hgt]
  · intro hgt
    have hadm : admitWrite (some s) cand = false := hgt
    constructor
    · simp [Route.POST, hv, hadm]
    · simp [SimpleRoute.POST, hv, hgt]

/-- Witness for C3 at the spec's scenario documents: a candidate stamped
    2500 against a stored document stamped 2000 is admitted by the client
    stamps and persisted with the server stamp 3000. -/
theorem claim3_witness :
    candSemiNewer.isValidState = true ∧
    jsGt candSemiNewer.getLastUpdated storedManual.getLastUpdated = true ∧
    (Route.POST [] (some storedManual) candSemiNewer 3000 true).store
        = some (candSemiNewer.setField "lastUpdated" (.jnum 3000)) ∧
    storeStamp (Route.POST [] (some storedManual) candSemiNewer 3000
        true).store = some 3000 := by
  refine ⟨by decide, by decide, ?_, ?_⟩
  · exact ((claim3_admission_two_step storedManual candSemiNewer 3000 []
      (by decide)).1 (by decide)).1
  · exact ((claim3_admission_two_step storedManual candSemiNewer 3000 []
      (by decide)).1 (by decide)).2.1

/-- C4: re-submitting the stored authoritative document itself (same
    `lastUpdated`) is not treated as newer; both route variants leave the
    store unchanged and broadcast nothing. -/
theorem claim4_idempotent_resubmission (s : Json) (now : Int)
    (registry : List String) (saveOk : Bool) :
    (Route.POST registry (some s) s now saveOk).store = some s ∧
    (Route.POST registry (some s) s now saveOk).notified = [] ∧
    (SimpleRoute.POST (some s) s now).1 = some s := by
  have hadm : admitWrite (some s) s = false := jsGt_self s.getLastUpdated
  by_cases hv : s.isValidState
  · refine ⟨?_, ?_, ?_⟩
    · simp [Route.POST, hv, hadm]
    · simp [Route.POST, hv, hadm]
    · simp [SimpleRoute.POST, hv, jsGt_self]
  · refine ⟨?_, ?_, ?_⟩
    · simp [Route.POST, hv]
    · simp [Route.POST, hv]
    · simp [SimpleRoute.POST, hv]

/-- C9: an accepted POST emits exactly one event carrying the full stamped
    document to each entry of the SSE registry and nothing to anyone else;
    and since no handler of the module ever inserts into `clients`, the
    registry stays empty across every request sequence, so the broadcast
    of every POST served by the module is a no-op. -/
theorem claim9_sse_broadcast (registry : List String) (stored : Option Json)
    (body : Json) (now : Int) (saveOk : Bool) (s0 : Option Json)
    (ops : List ApiOp) :
    ((Route.POST registry stored body now saveOk).notified =
      if body.isValidState && admitWrite stored body && saveOk then
        registry.map fun c => (c, body.setField "lastUpdated" (.jnum now))
      else []) ∧
    (apiRun ⟨[], s0⟩ ops).clients = [] ∧
    (Route.POST (apiRun ⟨[], s0⟩ ops).clients stored body now
        saveOk).notified = [] := by
  have hnot : ∀ (reg : List String) (st : Option Json),
      (Route.POST reg st body now saveOk).notified =
        if body.isValidState && admitWrite st body && saveOk then
          reg.map fun c => (c, body.setField "lastUpdated" (.jnum now))
        else [] := by
    intro reg st
    by_cases hv : body.isValidState
    · by_cases hadm : admitWrite st body
      · cases saveOk <;> simp [Route.POST, hv, hadm, Route.notifyClients]
      · simp [Route.POST, hv, hadm]
    · simp [Route.POST, hv]
  have hcl : ∀ (m : ApiModule) (l : List ApiOp),
      (apiRun m l).clients = m.clients := by
    intro m l
    induction l generalizing m with
    | nil => rfl
    | cons op rest ih =>
        cases op <;> simp [apiRun, apiStep, ih]
  refine ⟨hnot registry stored, hcl ⟨[], s0⟩ ops, ?_⟩
  rw [hnot, hcl]
  cases hc : (body.isValidState && admitWrite stored body && saveOk) <;> simp

/-- C10: a JSON array body passes the route's malformed-input check (it is
    truthy and `typeof` object), and with no stored document it is
    admitted, server-stamped on its property map, saved as the
    authoritative document and answered with 200 — in both route
    variants. -/
theorem claim10_array_admitted (es : List Json)
    (props : List (String × Json)) (now : Int) (registry : List String) :
    Json.isValidState (.jarr es props) = true ∧
    (Route.POST registry none (.jarr es props) now true).store
        = some ((Json.jarr es props).setField "lastUpdated" (.jnum now)) ∧
    (Route.POST registry none (.jarr es props) now true).resp
        = .ok ((Json.jarr es props).setField "lastUpdated" (.jnum now)) ∧
    storeStamp (Route.POST registry none (.jarr es props) now true).store
        = some now ∧
    (SimpleRoute.POST none (.jarr es props) now).1
        = some ((Json.jarr es props).setField "lastUpdated" (.jnum now)) := by
  have hv : Json.isValidState (.jarr es props) = true := rfl
  refine ⟨hv, ?_, ?_, ?_, ?_⟩
  · simp [Route.POST, hv, admitWrite]
  · simp [Route.POST, hv, admitWrite]
  · simp [Route.POST, hv, admitWrite, storeStamp,
      getLastUpdated_setStamp (Json.jarr es props) now hv]
  · simp [SimpleRoute.POST, hv]

/-- C1 counterexample: at the spec's own scenario (stored
    `{controlMode:"manual", lastUpdated:2000}`, stale candidate
    `{controlMode:"semi", lastUpdated:1500}`) the main route leaves the
    store unchanged but answers with the rejected candidate: the
    response's `state.controlMode` is `"semi"`, not the claimed
    `"manual"`. -/
theorem claim1_counterexample :
    jsGt candSemi.getLastUpdated storedManual.getLastUpdated = false ∧
    (Route.POST [] (some storedManual) candSemi 3000 true).store
        = some storedManual ∧
    respStringField (Route.POST [] (some storedManual) candSemi 3000
        true).resp "controlMode" = some "semi" ∧
    ¬(respStringField (Route.POST [] (some storedManual) candSemi 3000
        true).resp "controlMode" = some "manual") := by
  exact ⟨by decide, rfl, by decide, by decide⟩

/-- C1 as amended: a stale POST (candidate stamp not strictly greater)
    leaves the stored document unchanged in both route variants; the
    simplified route's response carries the unchanged authoritative
    document as its `state`, while the main route's response carries the
    rejected candidate. -/
theorem claim1_stale_write (registry : List String) (s cand : Json)
    (now : Int) (saveOk : Bool) (hv : cand.isValidState = true)
    (hstale : jsGt cand.getLastUpdated s.getLastUpdated = false) :
    (Route.POST registry (some s) cand now saveOk).store = some s ∧
    (SimpleRoute.POST (some s) cand now).1 = some s ∧
    (SimpleRoute.POST (some s) cand now).2 = .ok s ∧
    (Route.POST registry (some s) cand now saveOk).resp = .ok cand := by
  have hadm : admitWrite (some s) cand = false := hstale
  refine ⟨?_, ?_, ?_, ?_⟩ <;>
    simp [Route.POST, SimpleRoute.POST, hv, hadm, hstale]

/-- Witness for the amended C1 at the spec scenario: the simplified route
    answers the stale `semi` candidate with the unchanged `manual`
    document. -/
theorem claim1_witness :
    candSemi.isValidState = true ∧
    jsGt candSemi.getLastUpdated storedManual.getLastUpdated = false ∧
    (SimpleRoute.POST (some storedManual) candSemi 3000).2
        = .ok storedManual ∧
    respStringField (SimpleRoute.POST (some storedManual) candSemi 3000).2
        "controlMode" = some "manual" := by
  refine ⟨by decide, by decide, ?_, by decide⟩
  exact (claim1_stale_write [] storedManual candSemi 3000 true (by decide)
    (by decide)).2.2.1

/-- C2 counterexample: documents A (client stamp 1) and B (client stamp 2)
    satisfy `A.lastUpdated < B.lastUpdated`, yet submitting A (server
    clock 100) then B (server clock 200) leaves the authoritative document
    equal to the server-stamped A, not B: B's client stamp 2 is compared
    against A's server stamp 100 and rejected. -/
theorem claim2_counterexample :
    docA.getLastUpdated = some 1 ∧
    docB.getLastUpdated = some 2 ∧
    (1 : Int) < 2 ∧
    storeStringField (applyPosts none [(docA, 100, true), (docB, 200, true)])
        "tag" = some "A" ∧
    ¬(storeStringField
        (applyPosts none [(docA, 100, true), (docB, 200, true)]) "tag"
        = some "B") := by
  exact ⟨by decide, by decide, by decide, by decide, by decide⟩

/-- C2 as amended: with `A.lastUpdated < B.lastUpdated` and an empty
    store, submitting A then B ends with the authoritative document equal
    to server-stamped B provided B's client stamp exceeds the server time
    stamped onto A; and submitting B then A ends with server-stamped B
    unchanged by A provided A's client stamp does not exceed B's server
    stamp. -/
theorem claim2_admission_monotonicity (A B : Json) (a b nowA nowB : Int)
    (hA : A.isValidState = true) (hB : B.isValidState = true)
    (ha : A.getLastUpdated = some a) (hb : B.getLastUpdated = some b)
    (_hab : a < b) :
    (nowA < b →
      applyPosts none [(A, nowA, true), (B, nowB, true)]
          = some (B.setField "lastUpdated" (.jnum nowB)) ∧
      storeStamp (applyPosts none [(A, nowA, true), (B, nowB, true)])
          = some nowB) ∧
    (a ≤ nowB →
      applyPosts none [(B, nowB, true), (A, nowA, true)]
          = some (B.setField "lastUpdated" (.jnum nowB))) := by
  have hpostA : (Route.POST [] none A nowA true).store
      = some (A.setField "lastUpdated" (.jnum nowA)) := by
    simp [Route.POST, hA, admitWrite]
  have hpostB : (Route.POST [] none B nowB true).store
      = some (B.setField "lastUpdated" (.jnum nowB)) := by
    simp [Route.POST, hB, admitWrite]
  constructor
  · intro hnow
    have hadm2 : admitWrite (some (A.setField "lastUpdated" (.jnum nowA))) B
        = true := by
      simp only [admitWrite, getLastUpdated_setStamp A nowA hA, hb, jsGt]
      exact decide_eq_true hnow
    have hfin : applyPosts none [(A, nowA, true), (B, nowB, true)]
        = some (B.setField "lastUpdated" (.jnum nowB)) := by
      simp only [applyPosts]
      rw [hpostA]
      simp [Route.POST, hB, hadm2]
    exact ⟨hfin, by simp [hfin, storeStamp,
      getLastUpdated_setStamp B nowB hB]⟩
  · intro hle
    have hadm3 : admitWrite (some (B.setField "lastUpdated" (.jnum nowB))) A
        = false := by
      simp only [admitWrite, getLastUpdated_setStamp B nowB hB, ha, jsGt]
      exact decide_eq_false (not_lt.mpr hle)
    simp only [applyPosts]
    rw [hpostB]
    simp [Route.POST, hA, hadm3]

/-- Witness for the amended C2 with A = docA (stamp 1), B = docB
    (stamp 2), server clocks 1 and 5: both submission orders converge on
    server-stamped B. -/
theorem claim2_witness :
    applyPosts none [(docA, 1, true), (docB, 5, true)]
        = some (docB.setField "lastUpdated" (.jnum 5)) ∧
    applyPosts none [(docB, 5, true), (docA, 1, true)]
        = some (docB.setField "lastUpdated" (.jnum 5)) := by
  constructor
  · exact ((claim2_admission_monotonicity docA docB 1 2 1 5 (by decide)
      (by decide) (by decide) (by decide) (by decide)).1 (by decide)).1
  · exact (claim2_admission_monotonicity docA docB 1 2 1 5 (by decide)
      (by decide) (by decide) (by decide) (by decide)).2 (by decide)

/-- C5 counterexample: a JSON array body is not a JSON object, yet the
    route does not answer 400 for it — with an empty store it admits,
    stamps and saves the array, mutating the stored document. -/
theorem claim5_counterexample :
    Json.isJsonObject (.jarr [] []) = false ∧
    (Route.POST [] none (.jarr [] []) 5 true).resp.isBadRequest = false ∧
    (Route.POST [] none (.jarr [] []) 5 true).store
        = some (.jarr [] [("lastUpdated", .jnum 5)]) ∧
    (Route.POST [] none (.jarr [] []) 5 true).store.isSome = true := by
  exact ⟨by decide, by decide, rfl, by decide⟩

/-- C5 as amended: a POST body that is neither a JSON object nor a JSON
    array (a string, number, boolean or null) is answered 400 by both
    route variants and the stored document — hence what a following GET
    returns — is untouched. -/
theorem claim5_malformed_rejected (body : Json) (stored : Option Json)
    (now : Int) (registry : List String) (saveOk : Bool)
    (hobj : body.isJsonObject = false) (harr : body.isJsonArray = false) :
    (Route.POST registry stored body now saveOk).resp = .badRequest ∧
    (Route.POST registry stored body now saveOk).store = stored ∧
    Route.GET (Route.POST registry stored body now saveOk).store
        = Route.GET stored ∧
    (SimpleRoute.POST stored body now).2 = .badRequest ∧
    (SimpleRoute.POST stored body now).1 = stored := by
  have hv : body.isValidState = false := by
    cases body <;> simp_all [Json.isJsonObject, Json.isJsonArray,
      Json.isValidState, Json.truthy, Json.typeofObject]
  refine ⟨?_, ?_, ?_, ?_, ?_⟩ <;>
    simp [Route.POST, SimpleRoute.POST, hv]

/-- Witness for the amended C5 at the spec's example body, the JSON string
    "not-json", against the scenario's stored document: 400, store
    untouched. -/
theorem claim5_witness :
    Json.isJsonObject (.jstr "not-json") = false ∧
    Json.isJsonArray (.jstr "not-json") = false ∧
    (Route.POST [] (some storedManual) (.jstr "not-json") 3000 true).resp
        = .badRequest ∧
    (Route.POST [] (some storedManual) (.jstr "not-json") 3000 true).store
        = some storedManual := by
  refine ⟨by decide, by decide, ?_, ?_⟩
  · exact (claim5_malformed_rejected (.jstr "not-json") (some storedManual)
      3000 [] true (by decide) (by decide)).1
  · exact (claim5_malformed_rejected (.jstr "not-json") (some storedManual)
      3000 [] true (by decide) (by decide)).2.1

/-- C6: a callback registered through `onStateChange` is invoked exactly
    once during the call, synchronously with the current in-memory
    document (hence before the unsubscribe function is returned and before
    any later update callback); once the returned unsubscribe function has
    run, neither a notification pass nor a remote `updateState` delivers
    anything to that callback. -/
theorem claim6_subscriber_replay (svc : SyncService) (cb : Nat)
    (ns : SyncedState) :
    (svc.onStateChange cb).2 = [(cb, svc.state)] ∧
    ((((svc.onStateChange cb).1.unsubscribe cb).notifyStateChange).all
      fun e => e.1 != cb) = true ∧
    (((((svc.onStateChange cb).1.unsubscribe cb).updateState ns).2).all
      fun e => e.1 != cb) = true := by
  refine ⟨rfl, ?_, ?_⟩
  · exact all_ne_of_filtered _ cb _
  · by_cases h : ns.lastUpdated > svc.state.lastUpdated
    · have hall := all_ne_of_filtered (svc.callbacks ++ [cb]) cb ns
      simp only [SyncService.onStateChange, SyncService.unsubscribe,
        SyncService.updateState, SyncService.notifyStateChange]
      rw [if_pos h]
      exact hall
    · simp only [SyncService.onStateChange, SyncService.unsubscribe,
        SyncService.updateState, SyncService.notifyStateChange]
      rw [if_neg h]
      rfl

/-- C7: when the adapter's `saveState` fails, `updateStateAndPublish`
    returns `false`, leaves the in-memory document untouched and invokes
    no subscriber; on success the in-memory document becomes the shallow
    merge of the previous document with the partial edit, stamped with
    `lastUpdated` and `lastUpdatedBy`, the call returns `true`, and every
    subscriber is notified with exactly that document. -/
theorem claim7_publish_save_failure (svc : SyncService)
    (p : PartialSyncedState) (now : Int) :
    svc.updateStateAndPublish p now false = (svc, false, []) ∧
    svc.updateStateAndPublish p now true =
      ({ svc with state := mergeState svc.state p now svc.clientId }, true,
        svc.callbacks.map fun c =>
          (c, mergeState svc.state p now svc.clientId)) := by
  exact ⟨rfl, rfl⟩

/-- C8: accepted writes keep `lastUpdated` non-decreasing.  A remote
    document is adopted by `updateState` only when strictly newer, so any
    remote trace never lowers the engine's in-memory stamp; and any POST
    trace never lowers the stored document's stamp, provided each
    `Date.now()` reading is at or after the stamp stored at that moment
    (true of a monotone server clock, whose earlier readings produced the
    stored stamps). -/
theorem claim8_lastUpdated_monotone (stored : Option Json)
    (posts : List (Json × Int × Bool)) (svc : SyncService)
    (updates : List SyncedState) :
    (clockOk stored posts = true →
      stampMono (storeStamp stored) (storeStamp (applyPosts stored posts))) ∧
    svc.state.lastUpdated ≤ (svc.applyRemotes updates).state.lastUpdated := by
  exact ⟨applyPosts_stampMono posts stored, applyRemotes_stamp_mono updates svc⟩

/-- Witness for C8: one admitted POST (stored stamp 2000, candidate stamp
    2500, server clock 3000) satisfies the clock condition and the stored
    stamp moves from 2000 up to 3000. -/
theorem claim8_witness :
    clockOk (some storedManual) [(candSemiNewer, 3000, true)] = true ∧
    stampMono (storeStamp (some storedManual))
      (storeStamp
        (applyPosts (some storedManual) [(candSemiNewer, 3000, true)])) := by
  refine ⟨by decide, ?_⟩
  exact (claim8_lastUpdated_monotone (some storedManual)
    [(candSemiNewer, 3000, true)]
    ⟨⟨[], [], .jnull, "auto", [], 0, "system"⟩, [], "client"⟩ []).1
    (by decide)
